import Mathlib

/-!
Verification of the coffee-shop drinks API (`src/backend/src/api.py`).

The embedding models JSON values, Python truthiness and the membership /
subscript operators as used by the handlers, the drink store as an explicit
state threaded through each handler, and each Flask route handler as a Lean
function from its inputs (request body, path id, store state, and a flag for
persistence-layer success) to a response paired with the updated state.
A handler result of `none` models an uncaught Python exception (no JSON
error envelope is produced in that case).

`auth.py` (Token Verifier / Permission Gate) and `models.py` (`Drink.short`,
`Drink.long`, `db_drop_and_create_all`) are not part of the sources; they are
modelled from the specification where needed, marked `Modelled from the spec`.
-/

/-- JSON values, as produced by Flask's `request.get_json()`.  Numbers are
modelled as integers (all numbers appearing in the API are integral). -/
inductive Json where
  | null : Json
  | bool : Bool → Json
  | num : Int → Json
  | str : String → Json
  | arr : List Json → Json
  | obj : List (String × Json) → Json

namespace Json

/-- Python truthiness of a JSON value: `None`, `False`, `0`, `""`, `[]` and
`{}` are falsy, everything else truthy. -/
def truthy : Json → Bool
  | .null => false
  | .bool b => b
  | .num n => n != 0
  | .str s => s ≠ ""
  | .arr xs => !xs.isEmpty
  | .obj fs => !fs.isEmpty

/-- First field with the given key in a JSON object field list
(Python dicts have unique keys; first match models dict lookup). -/
def lookupField : List (String × Json) → String → Option Json
  | [], _ => none
  | (k, v) :: fs, key => if k = key then some v else lookupField fs key

/-- Python `key in data` for a decoded JSON value `data`: key membership on a
dict, element membership on a list, substring test on a string; `none` models
the `TypeError` raised on `None`, booleans and numbers. -/
def pyContains (key : String) : Json → Option Bool
  | .obj fs => some (fs.any (fun p => p.1 = key))
  | .arr xs => some (xs.any (fun x => match x with | .str s => s = key | _ => false))
  | .str s => some ((s.splitOn key).length > 1)
  | _ => none

/-- Python `data[key]` for a decoded JSON value: lookup on a dict (`none` when
the key is absent, modelling `KeyError`, or when `data` is not a dict,
modelling `TypeError`). -/
def pyIndex : Json → String → Option Json
  | .obj fs, key => lookupField fs key
  | _, _ => none

end Json

/-- A stored drink row.  `title` is an arbitrary JSON value because the
handlers assign request-body values to it without validation; `recipe` holds
the JSON value whose `json.dumps` serialization is stored as text
(`json.dumps`/`json.loads` round-trip, so the row is modelled by the value). -/
structure Drink where
  id : Nat
  title : Json
  recipe : Json

/-- The drinks table plus the autoincrement counter for generated ids. -/
structure AppState where
  drinks : List Drink
  nextId : Nat

/-- An HTTP response: status code and JSON body. -/
structure Response where
  status : Nat
  body : Json

/-- The uniform error envelope produced by the registered Flask error
handlers (`api.py` lines 144-177): `abort(400)`, `abort(404)`, `abort(403)`
and `abort(422)` each render `{"success": false, "error": <code>,
"message": <text>}` with the matching status. -/
def abortResponse : Nat → Response
  | 400 => ⟨400, .obj [("success", .bool false), ("error", .num 400), ("message", .str "bad request")]⟩
  | 404 => ⟨404, .obj [("success", .bool false), ("error", .num 404), ("message", .str "resource not found")]⟩
  | 403 => ⟨403, .obj [("success", .bool false), ("error", .num 403), ("message", .str "forbidden")]⟩
  | 422 => ⟨422, .obj [("success", .bool false), ("error", .num 422), ("message", .str "unprocessable")]⟩
  | n => ⟨n, .obj [("success", .bool false), ("error", .num n), ("message", .str "")]⟩

/-- `Drink.query.get(id)`: primary-key lookup in the drinks table. -/
def queryGet (s : AppState) (id : Nat) : Option Drink :=
  s.drinks.find? (fun d => d.id = id)

/-- Modelled from the spec: `Drink.long` lives in
`src/backend/src/database/models.py`, which is not among the sources; the
spec defines the long form as `{id, title, recipe: [{color, name, parts}]}`,
i.e. the full stored recipe (deserialized from its text form). -/
def Drink.long (d : Drink) : Json :=
  .obj [("id", .num d.id), ("title", d.title), ("recipe", d.recipe)]

/-- Modelled from the spec: the short form of one recipe ingredient keeps
only `color` and `parts`, dropping `name`; `none` models the failure on an
ingredient that is not an object with those fields. -/
def shortIngredient (j : Json) : Option Json := do
  let c ← j.pyIndex "color"
  let p ← j.pyIndex "parts"
  some (.obj [("color", c), ("parts", p)])

/-- Short forms of a list of ingredients; fails on the first malformed one,
like a Python list comprehension. -/
def shortIngredients : List Json → Option (List Json)
  | [] => some []
  | j :: js =>
    match shortIngredient j, shortIngredients js with
    | some r, some rs => some (r :: rs)
    | _, _ => none

/-- Modelled from the spec: `Drink.short` lives in `models.py`, which is not
among the sources; the spec defines the short form as
`{id, title, recipe: [{color, parts}]}` with the ingredient `name` stripped. -/
def Drink.short (d : Drink) : Option Json :=
  match d.recipe with
  | .arr ings => (shortIngredients ings).map
      (fun rs => .obj [("id", .num d.id), ("title", d.title), ("recipe", .arr rs)])
  | _ => none

/-- Short forms of all stored drinks, in order. -/
def shortForms : List Drink → Option (List Json)
  | [] => some []
  | d :: ds =>
    match d.short, shortForms ds with
    | some j, some js => some (j :: js)
    | _, _ => none

/-- `GET /drinks` (`api.py` lines 29-34): public, returns
`{"success": true, "drinks": [d.short() for d in Drink.query.all()]}`. -/
def get_drinks (s : AppState) : Option Response :=
  (shortForms s.drinks).map
    (fun js => ⟨200, .obj [("success", .bool true), ("drinks", .arr js)]⟩)

/-- `GET /drinks-detail` handler body (`api.py` lines 45-51): returns
`{"success": true, "drinks": [d.long() for d in Drink.query.all()]}`. -/
def get_drinks_detail (s : AppState) : Response :=
  ⟨200, .obj [("success", .bool true), ("drinks", .arr (s.drinks.map Drink.long))]⟩

/-- `POST /drinks` handler body (`api.py` lines 63-79).  `body` is
`request.get_json()` (`none` when no JSON body is present); `dbOk` models
whether `drink.insert()` succeeds or raises `SQLAlchemyError`.  A result of
`none` models an uncaught exception (`.get` on a non-dict body). -/
def create_drink (body : Option Json) (dbOk : Bool) (s : AppState) :
    Option (Response × AppState) :=
  match body with
  | none => some (abortResponse 400, s)
  | some data =>
    if data.truthy = false then some (abortResponse 400, s) else
    match data with
    | .obj fs =>
      match Json.lookupField fs "title" with
      | none => some (abortResponse 400, s)
      | some t =>
        if t.truthy = false then some (abortResponse 400, s) else
        match Json.lookupField fs "recipe" with
        | none => some (abortResponse 400, s)
        | some r =>
          if r.truthy = false then some (abortResponse 400, s) else
          if dbOk then
            let d : Drink := ⟨s.nextId, t, r⟩
            some (⟨200, .obj [("success", .bool true), ("drinks", .arr [d.long])]⟩,
              ⟨s.drinks ++ [d], s.nextId + 1⟩)
          else some (abortResponse 422, s)
    | _ => none

/-- Replace the row with the given id by the updated drink. -/
def updateRow (s : AppState) (id : Nat) (d' : Drink) : AppState :=
  ⟨s.drinks.map (fun d => if d.id = id then d' else d), s.nextId⟩

/-- `PATCH /drinks/<id>` handler body (`api.py` lines 93-111).  The id is
resolved first (`abort(404)` when absent), then `request.get_json()` is read
without any validation; `'title' in data` / `'recipe' in data` follow Python
membership semantics, so a `none` result models the `TypeError` raised when
the body is absent (`data` is `None`). -/
def patch_drink (id : Nat) (body : Option Json) (dbOk : Bool) (s : AppState) :
    Option (Response × AppState) :=
  match queryGet s id with
  | none => some (abortResponse 404, s)
  | some drink =>
    match body with
    | none => none
    | some data =>
      match data.pyContains "title" with
      | none => none
      | some hasTitle =>
        match
          if hasTitle then (data.pyIndex "title").map (fun t => { drink with title := t })
          else some drink with
        | none => none
        | some d1 =>
          match data.pyContains "recipe" with
          | none => none
          | some hasRecipe =>
            match
              if hasRecipe then (data.pyIndex "recipe").map (fun r => { d1 with recipe := r })
              else some d1 with
            | none => none
            | some d2 =>
              if dbOk then
                some (⟨200, .obj [("success", .bool true), ("drinks", .arr [d2.long])]⟩,
                  updateRow s id d2)
              else some (abortResponse 422, s)

/-- `DELETE /drinks/<id>` handler body (`api.py` lines 124-135): resolve the
id (`abort(404)` when absent), delete the row, return
`{"success": true, "delete": id}`. -/
def delete_drink (id : Nat) (dbOk : Bool) (s : AppState) : Response × AppState :=
  match queryGet s id with
  | none => (abortResponse 404, s)
  | some _ =>
    if dbOk then
      (⟨200, .obj [("success", .bool true), ("delete", .num id)]⟩,
        ⟨s.drinks.filter (fun d => d.id ≠ id), s.nextId⟩)
    else (abortResponse 422, s)

/-- Modelled from the spec: the outcome of the Token Verifier
(`src/backend/src/auth/auth.py` is not among the sources).  The verifier
either fails with one of the named failures — missing/malformed
`Authorization` header, unknown key id, expired token, invalid claims
(including an absent `permissions` claim) — or succeeds with the token's
permission list. -/
inductive VerifyResult where
  | authorizationHeaderMissing : VerifyResult
  | malformedHeader : VerifyResult
  | invalidKeyId : VerifyResult
  | tokenExpired : VerifyResult
  | invalidClaims : VerifyResult
  | verified : List String → VerifyResult
deriving DecidableEq, Repr

/-- The `AuthError` exception raised by `auth.py`: carries its own status
code and message, rendered by the handler at `api.py` lines 184-192. -/
structure AuthError where
  status_code : Nat
  error : String
deriving DecidableEq, Repr

/-- Modelled from the spec: the message attached to each Token Verifier
failure. -/
def verifyFailureMessage : VerifyResult → String
  | .authorizationHeaderMissing => "authorization header is expected"
  | .malformedHeader => "authorization header must be a bearer token"
  | .invalidKeyId => "unable to find the appropriate key"
  | .tokenExpired => "token expired"
  | .invalidClaims => "incorrect claims"
  | .verified _ => ""

/-- Modelled from the spec: `requires_auth(permission)` from `auth.py`.
Verification failures propagate unchanged with the verifier's own status
(401-class); a verified token lacking the required permission fails with a
403 `PermissionNotFound`; otherwise the wrapped handler runs with the
verified claims. -/
def requires_auth (permission : String) (v : VerifyResult) :
    Except AuthError (List String) :=
  match v with
  | .verified perms =>
      if permission ∈ perms then .ok perms
      else .error ⟨403, "permission not found"⟩
  | failure => .error ⟨401, verifyFailureMessage failure⟩

/-- The `AuthError` Flask error handler (`api.py` lines 184-192): renders
`{"success": false, "error": e.status_code, "message": e.error}` with status
`e.status_code` — the verifier's own status and message passed through. -/
def authErrorResponse (e : AuthError) : Response :=
  ⟨e.status_code,
    .obj [("success", .bool false), ("error", .num e.status_code),
      ("message", .str e.error)]⟩

/-- Composition of the permission gate with a handler body, as performed by
the `@requires_auth(...)` decorator: on an auth failure the `AuthError`
handler renders the error envelope and the handler body never runs. -/
def runProtected (permission : String) (v : VerifyResult) (s : AppState)
    (handler : List String → Option (Response × AppState)) :
    Option (Response × AppState) :=
  match requires_auth permission v with
  | .error e => some (authErrorResponse e, s)
  | .ok perms => handler perms

/-- Full route `GET /drinks-detail` (`api.py` lines 45-51), auth included. -/
def route_drinks_detail (v : VerifyResult) (s : AppState) :
    Option (Response × AppState) :=
  runProtected "get:drinks-detail" v s (fun _ => some (get_drinks_detail s, s))

/-- Full route `POST /drinks` (`api.py` lines 63-79), auth included. -/
def route_post_drinks (v : VerifyResult) (body : Option Json) (dbOk : Bool)
    (s : AppState) : Option (Response × AppState) :=
  runProtected "post:drinks" v s (fun _ => create_drink body dbOk s)

/-- Full route `PATCH /drinks/<id>` (`api.py` lines 93-111), auth included. -/
def route_patch_drink (v : VerifyResult) (id : Nat) (body : Option Json)
    (dbOk : Bool) (s : AppState) : Option (Response × AppState) :=
  runProtected "patch:drinks" v s (fun _ => patch_drink id body dbOk s)

/-- Full route `DELETE /drinks/<id>` (`api.py` lines 124-135), auth
included. -/
def route_delete_drink (v : VerifyResult) (id : Nat) (dbOk : Bool)
    (s : AppState) : Option (Response × AppState) :=
  runProtected "delete:drinks" v s (fun _ => some (delete_drink id dbOk s))

/-- `db_drop_and_create_all` is defined in `models.py` (not among the
sources); its behavior is documented at its call site (`api.py` lines 13-18):
"NOTE THIS WILL DROP ALL RECORDS AND START YOUR DB FROM SCRATCH".  It drops
and recreates the tables, leaving an empty store. -/
def db_drop_and_create_all (_s : AppState) : AppState :=
  ⟨[], 1⟩

/-- Application startup (`api.py` line 18): `db_drop_and_create_all()` runs
unconditionally on every process start, acting on whatever store state the
previous process left behind. -/
def startup (s : AppState) : AppState :=
  db_drop_and_create_all s

/-- A response is the uniform failure envelope when its body is exactly
`{"success": false, "error": <code>, "message": <string>}` with the `error`
field equal to the HTTP status. -/
def isUniformErrorEnvelope (r : Response) : Bool :=
  match r.body with
  | .obj [("success", .bool false), ("error", .num e), ("message", .str _)] =>
      e = (r.status : Int)
  | _ => false

/-- The effect of the PATCH handler's body on the fetched drink: `title` is
replaced when present in the body, `recipe` when present (serialized), and
nothing else changes. -/
def applyPatchFields (d : Drink) (fs : List (String × Json)) : Drink :=
  let d1 :=
    match Json.lookupField fs "title" with
    | some t => { d with title := t }
    | none => d
  match Json.lookupField fs "recipe" with
  | some r => { d1 with recipe := r }
  | none => d1

/-- The `AuthError` raised when the permission gate denies a request: the
verifier's own 401-class failure, or the gate's 403 `PermissionNotFound`. -/
def authErrorOf (_permission : String) (v : VerifyResult) : AuthError :=
  match v with
  | .verified _ => ⟨403, "permission not found"⟩
  | failure => ⟨401, verifyFailureMessage failure⟩

/-- A body field is missing or Python-falsy (`None`, `""`, `[]`, `{}`, `0`,
`False`), which `field or abort(400)` rejects. -/
def missingOrEmpty (fs : List (String × Json)) (key : String) : Bool :=
  match Json.lookupField fs key with
  | none => true
  | some v => !v.truthy

/-- A concrete stored drink used for concrete instances. -/
def waterDrink : Drink :=
  ⟨1, .str "Water",
    .arr [.obj [("color", .str "blue"), ("name", .str "water"), ("parts", .num 1)]]⟩

/-- The concrete recipe of the spec's round-trip scenario:
`[{"color": "blue", "name": "vodka", "parts": 2}]`. -/
def sampleRecipe : Json :=
  .arr [.obj [("color", .str "blue"), ("name", .str "vodka"), ("parts", .num 2)]]

theorem lookupField_none_iff (fs : List (String × Json)) (key : String) :
    Json.lookupField fs key = none ↔ fs.any (fun p => p.1 = key) = false := by
  induction fs with
  | nil => simp [Json.lookupField]
  | cons p fs ih =>
    obtain ⟨a, v⟩ := p
    by_cases hk : a = key <;> simp [Json.lookupField, hk, ih]

theorem queryGet_id (s : AppState) (id : Nat) (d : Drink)
    (h : queryGet s id = some d) : d.id = id := by
  have := List.find?_some h
  simpa using this

theorem requires_auth_denied (permission : String) (v : VerifyResult)
    (hd : ∀ ps, v = VerifyResult.verified ps → permission ∉ ps) :
    requires_auth permission v = .error (authErrorOf permission v) ∧
      ((authErrorOf permission v).status_code = 401 ∨
        (authErrorOf permission v).status_code = 403) := by
  cases v with
  | verified ps =>
    have hnp := hd ps rfl
    simp [requires_auth, authErrorOf, hnp]
  | authorizationHeaderMissing => exact ⟨rfl, Or.inl rfl⟩
  | malformedHeader => exact ⟨rfl, Or.inl rfl⟩
  | invalidKeyId => exact ⟨rfl, Or.inl rfl⟩
  | tokenExpired => exact ⟨rfl, Or.inl rfl⟩
  | invalidClaims => exact ⟨rfl, Or.inl rfl⟩

theorem lookupField_some_any (fs : List (String × Json)) (key : String)
    (v : Json) (h : Json.lookupField fs key = some v) :
    fs.any (fun p => p.1 = key) = true := by
  cases ha : fs.any (fun p => p.1 = key) with
  | true => rfl
  | false => rw [(lookupField_none_iff fs key).mpr ha] at h; cases h

theorem patch_drink_obj (s : AppState) (id : Nat) (d : Drink)
    (fs : List (String × Json)) (dbOk : Bool) (h : queryGet s id = some d) :
    patch_drink id (some (.obj fs)) dbOk s =
      if dbOk then
        some (⟨200, .obj [("success", .bool true),
            ("drinks", .arr [(applyPatchFields d fs).long])]⟩,
          updateRow s id (applyPatchFields d fs))
      else some (abortResponse 422, s) := by
  unfold patch_drink applyPatchFields
  rw [h]
  cases hT : Json.lookupField fs "title" with
  | none =>
    have haT := (lookupField_none_iff fs "title").mp hT
    cases hR : Json.lookupField fs "recipe" with
    | none =>
      have haR := (lookupField_none_iff fs "recipe").mp hR
      simp [Json.pyContains, Json.pyIndex, haT, haR, Option.bind]
    | some r =>
      have haR := lookupField_some_any fs "recipe" r hR
      simp [Json.pyContains, Json.pyIndex, haT, haR, hR, Option.bind]
  | some t =>
    have haT := lookupField_some_any fs "title" t hT
    cases hR : Json.lookupField fs "recipe" with
    | none =>
      have haR := (lookupField_none_iff fs "recipe").mp hR
      simp [Json.pyContains, Json.pyIndex, haT, haR, hT, Option.bind]
    | some r =>
      have haR := lookupField_some_any fs "recipe" r hR
      simp [Json.pyContains, Json.pyIndex, haT, haR, hT, hR, Option.bind]

theorem create_drink_bad_field (fs : List (String × Json)) (dbOk : Bool)
    (s : AppState)
    (h : missingOrEmpty fs "title" = true ∨ missingOrEmpty fs "recipe" = true) :
    create_drink (some (.obj fs)) dbOk s = some (abortResponse 400, s) := by
  unfold create_drink
  unfold missingOrEmpty at h
  by_cases hemp : (Json.obj fs).truthy = false
  · simp [hemp]
  · cases hT : Json.lookupField fs "title" with
    | none => simp [hemp, hT]
    | some t =>
      rw [hT] at h
      cases htt : t.truthy with
      | false => simp [hemp, hT, htt]
      | true =>
        cases hR : Json.lookupField fs "recipe" with
        | none => simp [hemp, hT, htt, hR]
        | some r =>
          rw [hR] at h
          cases hrt : r.truthy with
          | false => simp [hemp, hT, htt, hR, hrt]
          | true => simp [htt, hrt] at h

theorem short_pyIndex_id (d : Drink) (j : Json) (h : d.short = some j) :
    j.pyIndex "id" = some (.num d.id) := by
  cases hr : d.recipe with
  | arr ings =>
    simp only [Drink.short, hr] at h
    obtain ⟨rs, _, hj⟩ := Option.map_eq_some'.mp h
    rw [← hj]
    rfl
  | null => simp [Drink.short, hr] at h
  | bool b => simp [Drink.short, hr] at h
  | num n => simp [Drink.short, hr] at h
  | str t => simp [Drink.short, hr] at h
  | obj fs => simp [Drink.short, hr] at h

theorem shortForms_mem (ds : List Drink) (js : List Json)
    (h : shortForms ds = some js) (j : Json) (hj : j ∈ js) :
    ∃ d ∈ ds, d.short = some j := by
  induction ds generalizing js with
  | nil =>
    unfold shortForms at h
    injection h with h
    rw [← h] at hj
    cases hj
  | cons d ds ih =>
    unfold shortForms at h
    cases hd : d.short with
    | none => rw [hd] at h; cases h
    | some j0 =>
      rw [hd] at h
      cases hds : shortForms ds with
      | none => rw [hds] at h; cases h
      | some js0 =>
        rw [hds] at h
        injection h with h
        rw [← h] at hj
        rcases List.mem_cons.mp hj with hj0 | hjs
        · exact ⟨d, List.mem_cons_self d ds, hj0 ▸ hd⟩
        · obtain ⟨d', hd', hshort⟩ := ih js0 hds hjs
          exact ⟨d', List.mem_cons_of_mem d hd', hshort⟩

theorem create_drink_result (body : Option Json) (dbOk : Bool) (s : AppState)
    (r : Response) (s' : AppState) (h : create_drink body dbOk s = some (r, s')) :
    r.status = 200 ∨ isUniformErrorEnvelope r = true := by
  unfold create_drink at h
  split at h
  · injection h with h; injection h with h1 h2; rw [← h1]; right; rfl
  · split at h
    · injection h with h; injection h with h1 h2; rw [← h1]; right; rfl
    · split at h
      · split at h
        · injection h with h; injection h with h1 h2; rw [← h1]; right; rfl
        · split at h
          · injection h with h; injection h with h1 h2; rw [← h1]; right; rfl
          · split at h
            · injection h with h; injection h with h1 h2; rw [← h1]; right; rfl
            · split at h
              · injection h with h; injection h with h1 h2; rw [← h1]; right; rfl
              · split at h
                · injection h with h; injection h with h1 h2; rw [← h1]; left; rfl
                · injection h with h; injection h with h1 h2; rw [← h1]; right; rfl
      · cases h

theorem patch_drink_result (id : Nat) (body : Option Json) (dbOk : Bool)
    (s : AppState) (r : Response) (s' : AppState)
    (h : patch_drink id body dbOk s = some (r, s')) :
    r.status = 200 ∨ isUniformErrorEnvelope r = true := by
  unfold patch_drink at h
  split at h
  · injection h with h; injection h with h1 h2; rw [← h1]; right; rfl
  · split at h
    · cases h
    · split at h
      · cases h
      · split at h
        · cases h
        · split at h
          · cases h
          · split at h
            · cases h
            · split at h
              · injection h with h; injection h with h1 h2; rw [← h1]; left; rfl
              · injection h with h; injection h with h1 h2; rw [← h1]; right; rfl

theorem delete_drink_result (id : Nat) (dbOk : Bool) (s : AppState)
    (r : Response) (s' : AppState) (h : delete_drink id dbOk s = (r, s')) :
    r.status = 200 ∨ isUniformErrorEnvelope r = true := by
  unfold delete_drink at h
  split at h
  · injection h with h1 h2; rw [← h1]; right; rfl
  · split at h
    · injection h with h1 h2; rw [← h1]; left; rfl
    · injection h with h1 h2; rw [← h1]; right; rfl

/-- C2: after POST creates a drink with recipe
`[{"color":"blue","name":"vodka","parts":2}]`, `GET /drinks-detail` returns
exactly that ingredient list (long form), and `GET /drinks` returns
`[{"color":"blue","parts":2}]` with the `name` field stripped and
`color`/`parts` preserved. -/
theorem C2_round_trip :
    (create_drink (some (.obj [("title", .str "Vodka Blue"), ("recipe", sampleRecipe)]))
        true ⟨[], 1⟩).map
      (fun p => (get_drinks_detail p.2, get_drinks p.2)) =
    some
      (⟨200, .obj [("success", .bool true),
        ("drinks", .arr [.obj [("id", .num 1), ("title", .str "Vodka Blue"),
          ("recipe", sampleRecipe)]])]⟩,
       some ⟨200, .obj [("success", .bool true),
        ("drinks", .arr [.obj [("id", .num 1), ("title", .str "Vodka Blue"),
          ("recipe", .arr [.obj [("color", .str "blue"), ("parts", .num 2)]])]])]⟩) := rfl

/-- C3: a POST whose object body is missing the `title` field, missing the
`recipe` field, or has either field empty returns the 400 BadRequest
envelope, and the store is never reached: the state is unchanged. -/
theorem C3_post_missing_field_400 (fs : List (String × Json)) (dbOk : Bool)
    (s : AppState)
    (h : missingOrEmpty fs "title" = true ∨ missingOrEmpty fs "recipe" = true) :
    create_drink (some (.obj fs)) dbOk s =
      some (⟨400, .obj [("success", .bool false), ("error", .num 400),
        ("message", .str "bad request")]⟩, s) :=
  create_drink_bad_field fs dbOk s h

/-- Witness for C3 at a concrete input: a body with a recipe but no title. -/
theorem C3_witness :
    create_drink (some (.obj [("recipe", sampleRecipe)])) true ⟨[], 1⟩ =
      some (⟨400, .obj [("success", .bool false), ("error", .num 400),
        ("message", .str "bad request")]⟩, ⟨[], 1⟩) :=
  C3_post_missing_field_400 [("recipe", sampleRecipe)] true ⟨[], 1⟩ (Or.inl rfl)

/-- C4: a PATCH on an id with no stored drink returns 404 with body
`{"success": false, "error": 404, "message": "resource not found"}`,
regardless of the request body, and the store is unchanged. -/
theorem C4_patch_absent_404 (s : AppState) (id : Nat) (body : Option Json)
    (dbOk : Bool) (h : queryGet s id = none) :
    patch_drink id body dbOk s =
      some (⟨404, .obj [("success", .bool false), ("error", .num 404),
        ("message", .str "resource not found")]⟩, s) := by
  unfold patch_drink
  rw [h]
  rfl

/-- Witness for C4 at a concrete input: PATCH on nonexistent id 999. -/
theorem C4_witness :
    patch_drink 999 (some (.obj [("title", .str "x")])) true ⟨[waterDrink], 2⟩ =
      some (⟨404, .obj [("success", .bool false), ("error", .num 404),
        ("message", .str "resource not found")]⟩, ⟨[waterDrink], 2⟩) :=
  C4_patch_absent_404 ⟨[waterDrink], 2⟩ 999 (some (.obj [("title", .str "x")])) true rfl

/-- C5: DELETE on an existing id, when the store accepts the deletion,
responds `{"success": true, "delete": id}` with that exact id and removes
the drink: the resulting store holds no drink with that id, and a subsequent
`GET /drinks` lists no entry whose `id` field is that id. -/
theorem C5_delete_removes (s : AppState) (id : Nat) (d : Drink)
    (h : queryGet s id = some d) :
    delete_drink id true s =
      (⟨200, .obj [("success", .bool true), ("delete", .num id)]⟩,
        ⟨s.drinks.filter (fun d' => d'.id ≠ id), s.nextId⟩) ∧
    (∀ d' ∈ (delete_drink id true s).2.drinks, d'.id ≠ id) ∧
    (∀ js, get_drinks (delete_drink id true s).2 =
        some ⟨200, .obj [("success", .bool true), ("drinks", .arr js)]⟩ →
      ∀ j ∈ js, j.pyIndex "id" ≠ some (.num id)) := by
  have hdel : delete_drink id true s =
      (⟨200, .obj [("success", .bool true), ("delete", .num id)]⟩,
        ⟨s.drinks.filter (fun d' => d'.id ≠ id), s.nextId⟩) := by
    unfold delete_drink
    rw [h]
    rfl
  have hfilter : ∀ js,
      get_drinks ⟨s.drinks.filter (fun d' => d'.id ≠ id), s.nextId⟩ =
        some ⟨200, .obj [("success", .bool true), ("drinks", .arr js)]⟩ →
      ∀ j ∈ js, j.pyIndex "id" ≠ some (.num id) := by
    intro js hjs j hj
    unfold get_drinks at hjs
    obtain ⟨js0, hsf, hfeq⟩ := Option.map_eq_some'.mp hjs
    have hjseq : js0 = js := by simpa using hfeq
    subst hjseq
    obtain ⟨d', hd', hshort⟩ := shortForms_mem _ js0 hsf j hj
    have hd'' : d' ∈ s.drinks.filter (fun x => x.id ≠ id) := hd'
    have hid := short_pyIndex_id d' j hshort
    intro hcontra
    rw [hid] at hcontra
    have h1 : (d'.id : Int) = (id : Int) := by
      injection hcontra with hc
      injection hc
    have hdid : d'.id = id := by exact_mod_cast h1
    have hmem := List.of_mem_filter hd''
    simp [hdid] at hmem
  refine ⟨hdel, ?_, ?_⟩
  · rw [hdel]
    intro d' hd'
    have hd'' : d' ∈ s.drinks.filter (fun x => x.id ≠ id) := hd'
    have := List.of_mem_filter hd''
    simpa using this
  · rw [hdel]
    exact hfilter

/-- Witness for C5 at a concrete input: delete the only stored drink. -/
theorem C5_witness :
    delete_drink 1 true ⟨[waterDrink], 2⟩ =
      (⟨200, .obj [("success", .bool true), ("delete", .num 1)]⟩,
        ⟨[], 2⟩) :=
  (C5_delete_removes ⟨[waterDrink], 2⟩ 1 waterDrink rfl).1

/-- C6: PATCH is partial field replacement on an existing drink: a body that
omits `title` leaves the title unchanged, one that omits `recipe` leaves the
recipe unchanged, the drink's id is always unchanged (ids of all stored rows
are unchanged), and the response carries the updated drink, long form, as a
single-element list. -/
theorem C6_patch_partial_update (s : AppState) (id : Nat) (d : Drink)
    (fs : List (String × Json)) (h : queryGet s id = some d) :
    patch_drink id (some (.obj fs)) true s =
      some (⟨200, .obj [("success", .bool true),
          ("drinks", .arr [(applyPatchFields d fs).long])]⟩,
        updateRow s id (applyPatchFields d fs)) ∧
    (applyPatchFields d fs).id = d.id ∧
    (Json.lookupField fs "title" = none →
      (applyPatchFields d fs).title = d.title) ∧
    (Json.lookupField fs "recipe" = none →
      (applyPatchFields d fs).recipe = d.recipe) ∧
    (updateRow s id (applyPatchFields d fs)).drinks.map Drink.id =
      s.drinks.map Drink.id := by
  have hidap : (applyPatchFields d fs).id = d.id := by
    cases hT : Json.lookupField fs "title" <;>
      cases hR : Json.lookupField fs "recipe" <;>
        simp [applyPatchFields, hT, hR]
  refine ⟨by simpa using patch_drink_obj s id d fs true h, hidap, ?_, ?_, ?_⟩
  · intro hT
    cases hR : Json.lookupField fs "recipe" <;>
      simp [applyPatchFields, hT, hR]
  · intro hR
    cases hT : Json.lookupField fs "title" <;>
      simp [applyPatchFields, hT, hR]
  · have hid : d.id = id := queryGet_id s id d h
    unfold updateRow
    simp only [List.map_map]
    apply List.map_congr_left
    intro a _
    by_cases ha : a.id = id
    · simp [Function.comp, ha, hidap, hid]
    · simp [Function.comp, ha]

/-- Witness for C6 at a concrete input: a PATCH body carrying only a new
title leaves the recipe and id unchanged. -/
theorem C6_witness :
    patch_drink 1 (some (.obj [("title", .str "Sparkling")])) true ⟨[waterDrink], 2⟩ =
      some (⟨200, .obj [("success", .bool true),
          ("drinks", .arr [.obj [("id", .num 1), ("title", .str "Sparkling"),
            ("recipe", waterDrink.recipe)]])]⟩,
        ⟨[⟨1, .str "Sparkling", waterDrink.recipe⟩], 2⟩) :=
  (C6_patch_partial_update ⟨[waterDrink], 2⟩ 1 waterDrink [("title", .str "Sparkling")] rfl).1

theorem runProtected_denied (permission : String) (v : VerifyResult)
    (s : AppState) (handler : List String → Option (Response × AppState))
    (hd : ∀ ps, v = VerifyResult.verified ps → permission ∉ ps) :
    runProtected permission v s handler =
      some (authErrorResponse (authErrorOf permission v), s) ∧
    (authErrorResponse (authErrorOf permission v)).status ≠ 200 ∧
    ((authErrorOf permission v).status_code = 401 ∨
      (authErrorOf permission v).status_code = 403) ∧
    isUniformErrorEnvelope (authErrorResponse (authErrorOf permission v)) = true := by
  obtain ⟨herr, hst⟩ := requires_auth_denied permission v hd
  refine ⟨?_, ?_, hst, ?_⟩
  · unfold runProtected
    rw [herr]
  · show (authErrorOf permission v).status_code ≠ 200
    rcases hst with h1 | h1 <;> rw [h1] <;> decide
  · simp [isUniformErrorEnvelope, authErrorResponse]

/-- C1: a request to GET `/drinks-detail`, POST `/drinks`, PATCH
`/drinks/{id}` or DELETE `/drinks/{id}` whose bearer token does not verify
as carrying the required permission is answered with the authorization error
envelope produced by the gate (its own 401- or 403-class status and
message), never a 200, with the store unchanged — regardless of the request
body and path id. -/
theorem C1_auth_required (v : VerifyResult) (s : AppState) (body : Option Json)
    (id : Nat) (dbOk : Bool) :
    ((∀ ps, v = VerifyResult.verified ps → "get:drinks-detail" ∉ ps) →
      route_drinks_detail v s =
        some (authErrorResponse (authErrorOf "get:drinks-detail" v), s) ∧
      (authErrorResponse (authErrorOf "get:drinks-detail" v)).status ≠ 200 ∧
      ((authErrorOf "get:drinks-detail" v).status_code = 401 ∨
        (authErrorOf "get:drinks-detail" v).status_code = 403) ∧
      isUniformErrorEnvelope
        (authErrorResponse (authErrorOf "get:drinks-detail" v)) = true) ∧
    ((∀ ps, v = VerifyResult.verified ps → "post:drinks" ∉ ps) →
      route_post_drinks v body dbOk s =
        some (authErrorResponse (authErrorOf "post:drinks" v), s) ∧
      (authErrorResponse (authErrorOf "post:drinks" v)).status ≠ 200 ∧
      ((authErrorOf "post:drinks" v).status_code = 401 ∨
        (authErrorOf "post:drinks" v).status_code = 403) ∧
      isUniformErrorEnvelope
        (authErrorResponse (authErrorOf "post:drinks" v)) = true) ∧
    ((∀ ps, v = VerifyResult.verified ps → "patch:drinks" ∉ ps) →
      route_patch_drink v id body dbOk s =
        some (authErrorResponse (authErrorOf "patch:drinks" v), s) ∧
      (authErrorResponse (authErrorOf "patch:drinks" v)).status ≠ 200 ∧
      ((authErrorOf "patch:drinks" v).status_code = 401 ∨
        (authErrorOf "patch:drinks" v).status_code = 403) ∧
      isUniformErrorEnvelope
        (authErrorResponse (authErrorOf "patch:drinks" v)) = true) ∧
    ((∀ ps, v = VerifyResult.verified ps → "delete:drinks" ∉ ps) →
      route_delete_drink v id dbOk s =
        some (authErrorResponse (authErrorOf "delete:drinks" v), s) ∧
      (authErrorResponse (authErrorOf "delete:drinks" v)).status ≠ 200 ∧
      ((authErrorOf "delete:drinks" v).status_code = 401 ∨
        (authErrorOf "delete:drinks" v).status_code = 403) ∧
      isUniformErrorEnvelope
        (authErrorResponse (authErrorOf "delete:drinks" v)) = true) := by
  refine ⟨fun hd => ?_, fun hd => ?_, fun hd => ?_, fun hd => ?_⟩
  · exact runProtected_denied "get:drinks-detail" v s
      (fun _ => some (get_drinks_detail s, s)) hd
  · exact runProtected_denied "post:drinks" v s
      (fun _ => create_drink body dbOk s) hd
  · exact runProtected_denied "patch:drinks" v s
      (fun _ => patch_drink id body dbOk s) hd
  · exact runProtected_denied "delete:drinks" v s
      (fun _ => some (delete_drink id dbOk s)) hd

/-- Witness for C1 at a concrete input: a request with no Authorization
header and a perfectly valid POST body is still denied on all four routes. -/
theorem C1_witness :
    route_drinks_detail .authorizationHeaderMissing ⟨[], 1⟩ =
      some (⟨401, .obj [("success", .bool false), ("error", .num 401),
        ("message", .str "authorization header is expected")]⟩, ⟨[], 1⟩) ∧
    route_post_drinks .authorizationHeaderMissing
        (some (.obj [("title", .str "Water"), ("recipe", sampleRecipe)])) true ⟨[], 1⟩ =
      some (⟨401, .obj [("success", .bool false), ("error", .num 401),
        ("message", .str "authorization header is expected")]⟩, ⟨[], 1⟩) ∧
    route_patch_drink .authorizationHeaderMissing 1
        (some (.obj [("title", .str "Water"), ("recipe", sampleRecipe)])) true ⟨[], 1⟩ =
      some (⟨401, .obj [("success", .bool false), ("error", .num 401),
        ("message", .str "authorization header is expected")]⟩, ⟨[], 1⟩) ∧
    route_delete_drink .authorizationHeaderMissing 1 true ⟨[], 1⟩ =
      some (⟨401, .obj [("success", .bool false), ("error", .num 401),
        ("message", .str "authorization header is expected")]⟩, ⟨[], 1⟩) := by
  have h := C1_auth_required .authorizationHeaderMissing ⟨[], 1⟩
    (some (.obj [("title", .str "Water"), ("recipe", sampleRecipe)])) 1 true
  exact ⟨(h.1 (fun ps hps => by cases hps)).1,
    (h.2.1 (fun ps hps => by cases hps)).1,
    (h.2.2.1 (fun ps hps => by cases hps)).1,
    (h.2.2.2 (fun ps hps => by cases hps)).1⟩

/-- Counterexample to C7 as stated: a PATCH with body `{"title": ""}` on the
stored drink with id 1 succeeds (200) and stores the empty title, so PATCH
does not preserve the non-empty-title invariant. -/
theorem C7_counterexample :
    patch_drink 1 (some (.obj [("title", .str "")])) true ⟨[waterDrink], 2⟩ =
      some (⟨200, .obj [("success", .bool true),
          ("drinks", .arr [.obj [("id", .num 1), ("title", .str ""),
            ("recipe", waterDrink.recipe)]])]⟩,
        ⟨[⟨1, .str "", waterDrink.recipe⟩], 2⟩) ∧
    (Json.str "").truthy = false :=
  ⟨rfl, rfl⟩

/-- C7 amended: POST rejects a missing or empty (falsy) `title` with 400 and
leaves the store unchanged, but PATCH performs no title validation: it
stores whatever `title` value the body supplies — including the empty
string — so the non-empty-title invariant is enforced only on POST, not
preserved by PATCH. -/
theorem C7_amended (s : AppState) (fs : List (String × Json)) (dbOk : Bool)
    (hbad : missingOrEmpty fs "title" = true)
    (id : Nat) (d : Drink) (h : queryGet s id = some d) (title : Json) :
    create_drink (some (.obj fs)) dbOk s = some (abortResponse 400, s) ∧
    patch_drink id (some (.obj [("title", title)])) true s =
      some (⟨200, .obj [("success", .bool true),
          ("drinks", .arr [Drink.long ⟨d.id, title, d.recipe⟩])]⟩,
        updateRow s id ⟨d.id, title, d.recipe⟩) := by
  refine ⟨create_drink_bad_field fs dbOk s (Or.inl hbad), ?_⟩
  have hp := patch_drink_obj s id d [("title", title)] true h
  simpa [applyPatchFields, Json.lookupField] using hp

/-- Witness for C7's amended statement at a concrete input: POST with an
empty title is rejected, and a PATCH storing the empty title succeeds. -/
theorem C7_witness :
    create_drink (some (.obj [("title", .str ""), ("recipe", sampleRecipe)]))
        true ⟨[waterDrink], 2⟩ =
      some (abortResponse 400, ⟨[waterDrink], 2⟩) ∧
    patch_drink 1 (some (.obj [("title", .str "Empty")])) true ⟨[waterDrink], 2⟩ =
      some (⟨200, .obj [("success", .bool true),
          ("drinks", .arr [Drink.long ⟨1, .str "Empty", waterDrink.recipe⟩])]⟩,
        ⟨[⟨1, .str "Empty", waterDrink.recipe⟩], 2⟩) :=
  C7_amended ⟨[waterDrink], 2⟩ [("title", .str ""), ("recipe", sampleRecipe)]
    true rfl 1 waterDrink rfl (.str "Empty")

/-- Counterexample to C8 as stated: a drink stored before a process restart
is gone after it, because `db_drop_and_create_all()` runs unconditionally at
startup (`api.py` line 18) and, per its call-site note, drops all records. -/
theorem C8_counterexample :
    waterDrink ∈ (⟨[waterDrink], 2⟩ : AppState).drinks ∧
    waterDrink ∉ (startup ⟨[waterDrink], 2⟩).drinks := by
  constructor
  · exact List.mem_singleton_self waterDrink
  · simp [startup, db_drop_and_create_all]

/-- C8 amended: startup re-creates the schema but does not provide durable
storage across restarts: `db_drop_and_create_all()` runs on every process
start, so the post-startup store is always empty and no previously stored
drink survives a restart. -/
theorem C8_amended (s : AppState) :
    (startup s).drinks = [] ∧ ∀ d ∈ s.drinks, d ∉ (startup s).drinks := by
  refine ⟨rfl, ?_⟩
  intro d _
  simp [startup, db_drop_and_create_all]

/-- Witness for C8's amended statement at a concrete input. -/
theorem C8_witness :
    (startup ⟨[waterDrink], 2⟩).drinks = [] ∧
    waterDrink ∉ (startup ⟨[waterDrink], 2⟩).drinks :=
  ⟨(C8_amended ⟨[waterDrink], 2⟩).1,
    (C8_amended ⟨[waterDrink], 2⟩).2 waterDrink (List.mem_singleton_self waterDrink)⟩

/-- C9: every failure response is the uniform envelope `{"success": false,
"error": <status>, "message": <string>}`: any non-200 result of the create,
patch or delete handlers satisfies the envelope predicate; the registered
error handlers map 400, 404, 403 and 422 to their fixed envelopes; and the
`AuthError` handler passes the gate's own status code and message through
verbatim, with the message a string. -/
theorem C9_uniform_envelope (body : Option Json) (dbOk : Bool) (s : AppState)
    (id : Nat) (r : Response) (s' : AppState) (e : AuthError) :
    (create_drink body dbOk s = some (r, s') →
      r.status = 200 ∨ isUniformErrorEnvelope r = true) ∧
    (patch_drink id body dbOk s = some (r, s') →
      r.status = 200 ∨ isUniformErrorEnvelope r = true) ∧
    (delete_drink id dbOk s = (r, s') →
      r.status = 200 ∨ isUniformErrorEnvelope r = true) ∧
    abortResponse 400 = ⟨400, .obj [("success", .bool false), ("error", .num 400),
      ("message", .str "bad request")]⟩ ∧
    abortResponse 404 = ⟨404, .obj [("success", .bool false), ("error", .num 404),
      ("message", .str "resource not found")]⟩ ∧
    abortResponse 403 = ⟨403, .obj [("success", .bool false), ("error", .num 403),
      ("message", .str "forbidden")]⟩ ∧
    abortResponse 422 = ⟨422, .obj [("success", .bool false), ("error", .num 422),
      ("message", .str "unprocessable")]⟩ ∧
    authErrorResponse e = ⟨e.status_code, .obj [("success", .bool false),
      ("error", .num e.status_code), ("message", .str e.error)]⟩ ∧
    isUniformErrorEnvelope (authErrorResponse e) = true := by
  refine ⟨create_drink_result body dbOk s r s',
    patch_drink_result id body dbOk s r s',
    delete_drink_result id dbOk s r s', rfl, rfl, rfl, rfl, rfl, ?_⟩
  simp [isUniformErrorEnvelope, authErrorResponse]

/-- Witness for C9 at a concrete input: DELETE on a nonexistent id yields
the 404 envelope, which satisfies the uniform-envelope predicate. -/
theorem C9_witness :
    (abortResponse 404).status = 200 ∨
    isUniformErrorEnvelope (abortResponse 404) = true :=
  (C9_uniform_envelope none true ⟨[], 1⟩ 7 (abortResponse 404) ⟨[], 1⟩
    ⟨401, "token expired"⟩).2.2.1 rfl

/-- C10: the PATCH handler reads the body only after resolving the id and
never validates it: on an existing id with an absent body the handler
evaluates `'title' in None` and raises (no response at all — in particular
not the 400 envelope POST would give); evaluation is guaranteed total when
the body is a JSON object; and on a nonexistent id the 404 is produced
before the body is consulted. -/
theorem C10_patch_body_partiality (s : AppState) (id : Nat) (d : Drink)
    (dbOk : Bool) (fs : List (String × Json)) (h : queryGet s id = some d)
    (s2 : AppState) (id2 : Nat) (body2 : Option Json)
    (h2 : queryGet s2 id2 = none) :
    patch_drink id none dbOk s = none ∧
    (∀ rs : Response × AppState, patch_drink id none dbOk s ≠ some rs) ∧
    patch_drink id (some (.obj fs)) dbOk s ≠ none ∧
    patch_drink id2 body2 dbOk s2 = some (abortResponse 404, s2) := by
  have hnone : patch_drink id none dbOk s = none := by
    unfold patch_drink
    rw [h]
  refine ⟨hnone, ?_, ?_, ?_⟩
  · intro rs
    rw [hnone]
    simp
  · rw [patch_drink_obj s id d fs dbOk h]
    cases dbOk <;> simp
  · unfold patch_drink
    rw [h2]

/-- Witness for C10 at a concrete input: PATCH of the stored drink with no
JSON body crashes, while the same PATCH with an object body succeeds. -/
theorem C10_witness :
    patch_drink 1 none true ⟨[waterDrink], 2⟩ = none ∧
    patch_drink 1 (some (.obj [("title", .str "x")])) true ⟨[waterDrink], 2⟩ ≠ none := by
  have h := C10_patch_body_partiality ⟨[waterDrink], 2⟩ 1 waterDrink true
    [("title", .str "x")] rfl ⟨[], 1⟩ 9 none rfl
  exact ⟨h.1, h.2.2.1⟩
